import Mathlib

/-
Verification of the govanityurls server (main.go) against its
natural-language specification.

The development shallowly embeds the program: the repository entry struct,
the package-level map `m`, the reload pipeline `loadYaml` (readFile →
yaml.Unmarshal → enrichment loop), the dispatch in `readFile`, the remote
reader `loadHTTPFile`, the request handler `handle`, and two small labelled
transition systems for the startup sequence of `main` and for the
RWMutex-guarded shared map.  I/O outcomes (the fetched bytes, the parsed
form of a YAML document, template-execution success) are passed in as
explicit parameters, so every definition is a computable function of its
inputs.
-/

/-- Go strings.HasPrefix: byte-wise prefix test (main.go line 146). -/
def goHasPrefix (s pre : String) : Bool :=
  pre.data.isPrefixOf s.data

/-- Occurrence test for a character list inside another, scanning every
suffix; helper for goContains. -/
def subOccurs (sub : List Char) : List Char → Bool
  | [] => sub.isEmpty
  | c :: rest => sub.isPrefixOf (c :: rest) || subOccurs sub rest

/-- Go strings.Contains: substring occurrence test (main.go line 72). -/
def goContains (s sub : String) : Bool :=
  subOccurs sub.data s.data

/-- The anonymous struct stored as the map's value type (main.go lines
30-33): `Repo` and `Display`, both strings, zero value "". -/
structure Entry where
  Repo : String
  Display : String
deriving DecidableEq

/-- The package-level map `m : map[string]struct{Repo; Display}`
(main.go line 30), embedded as an association list whose keys are unique
by construction of mapSet.  The nil map is `[]`. -/
abbrev ConfigMap := List (String × Entry)

/-- Go map assignment `m[k] = v`: replace the binding if the key is
present, otherwise append it. -/
def mapSet (m : ConfigMap) (k : String) (v : Entry) : ConfigMap :=
  match m with
  | [] => [(k, v)]
  | (k0, v0) :: rest => if k0 = k then (k, v) :: rest else (k0, v0) :: mapSet rest k v

/-- Go map read `p, ok := m[k]` (main.go line 84). -/
def mapLookup (m : ConfigMap) (k : String) : Option Entry :=
  match m with
  | [] => none
  | (k0, v0) :: rest => if k0 = k then some v0 else mapLookup rest k

/-- Raw configuration bytes as returned by readFile. -/
abbrev Bytes := List UInt8

/-- Abstract result of running gopkg.in/yaml.v2's parser + decoder front
end on a byte slice.  `syntaxErr`: the YAML parser rejects the bytes
before any value is decoded (yaml.v2 builds the whole node tree first, so
nothing is written to the target).  `parsed typeErr pairs`: the document
is well-formed YAML and `pairs` are the key/entry bindings that decode
into the map's value type, in document order; `typeErr` is true when some
value had a type mismatch — per yaml.v2's documented behaviour, decoding
then continues partially to the end of the content and Unmarshal returns
a *yaml.TypeError AFTER the decodable bindings were stored. -/
inductive YamlDoc where
  | syntaxErr
  | parsed (typeErr : Bool) (pairs : List (String × Entry))

/-- yaml.Unmarshal(bytes, &m) for a map target (main.go line 65): yaml.v2's
mapping decoder allocates a fresh map only when the target is nil
(decode.go: `if out.IsNil() { out.Set(reflect.MakeMap(outt)) }`) and
otherwise keeps the existing map, then stores each decoded binding with
SetMapIndex — i.e. it MERGES the document into whatever the package-level
map already holds.  Returns the updated map and an error flag. -/
def yamlUnmarshal (doc : YamlDoc) (m : ConfigMap) : ConfigMap × Bool :=
  match doc with
  | YamlDoc.syntaxErr => (m, true)
  | YamlDoc.parsed typeErr pairs =>
      (pairs.foldl (fun acc kv => mapSet acc kv.1 kv.2) m, typeErr)

/-- The computation performed by the body of the enrichment loop
(main.go lines 68-74) on the local variable `e`: skip entries with a
non-empty Display; for entries whose Repo contains "github.com" set
Display to fmt.Sprintf of the three space-separated templates. -/
def enrichEntry (e : Entry) : Entry :=
  if e.Display ≠ "" then e
  else if goContains e.Repo "github.com" then
    { e with Display := e.Repo ++ " " ++ e.Repo ++ "/tree/master{/dir} " ++ e.Repo ++ "/blob/master{/dir}/{file}#L{line}" }
  else e

/-- The enrichment loop `for _, e := range m { ...; e.Display = ... }`
(main.go lines 68-75).  In Go, ranging over a map of struct VALUES binds
`e` to a copy of each entry; the loop body computes the enriched entry
into that local copy and never writes it back (`m[k] = e` is absent), so
each iteration's result is discarded and the map is returned unchanged. -/
def enrichLoop (m : ConfigMap) : ConfigMap :=
  m.foldl (fun acc kv => let _e : Entry := enrichEntry kv.2; acc) m

/-- loadYaml (main.go lines 56-77): fetch bytes (outcome passed in as
`fetched`); on fetch error return the error with the map untouched;
otherwise take the write lock and yaml.Unmarshal into the shared map
(merging), returning the Unmarshal error if any — note the map has
already been updated at that point — and finally run the enrichment
loop.  `parse` is the deterministic yaml front end mapping bytes to
their parsed form.  Result: the new state of the shared map, and the
error flag returned by loadYaml. -/
def loadYaml (parse : Bytes → YamlDoc) (fetched : Except Unit Bytes)
    (m0 : ConfigMap) : ConfigMap × Bool :=
  match fetched with
  | Except.error _ => (m0, true)
  | Except.ok bs =>
      match yamlUnmarshal (parse bs) m0 with
      | (m1, true) => (m1, true)
      | (m1, false) => (enrichLoop m1, false)

/-- readFile's dispatch condition (main.go line 146):
strings.HasPrefix(path, "http") || strings.HasPrefix(path, "https");
true sends the locator to loadHTTPFile, false to loadDiskFile. -/
def readFileDispatch (p : String) : Bool :=
  goHasPrefix p "http" || goHasPrefix p "https"

/-- Follows the spec's words (§4.1): the locator's scheme indicates HTTP
or HTTPS, i.e. it is an http:// or https:// URL.  Stated for comparison
with readFileDispatch, which the source actually uses. -/
def schemeIsHTTP (p : String) : Bool :=
  goHasPrefix p "http://" || goHasPrefix p "https://"

/-- Outcome of ioutil.ReadAll on the response body: `ok` when err == nil,
`failed` (with the bytes read so far) when err != nil. -/
inductive ReadAllResult where
  | ok (bytes : Bytes)
  | failed (bytesSoFar : Bytes)

/-- Environment of one loadHTTPFile call: building the request failed,
the round trip failed, or a response arrived with a status code and a
body-read outcome. -/
inductive HTTPFetch where
  | requestBuildErr
  | doErr
  | response (status : Nat) (body : ReadAllResult)

/-- What a loadHTTPFile call does, observationally. `panicNilError`
records a runtime panic: calling Error() on a nil error value. -/
inductive LoadHTTPOutcome where
  | ok (bytes : Bytes)
  | err
  | panicNilError
deriving DecidableEq

/-- loadHTTPFile (main.go lines 161-179): request-construction and
round-trip errors are returned; a non-200 status is returned as an
error; then `vanity, err := ioutil.ReadAll(resp.Body)` is followed
unconditionally by `log.Printf("error read response: %s", err.Error())` —
when the read SUCCEEDED, err is nil and err.Error() panics; when the
read failed, the log line is fine and (vanity, err) is returned, which
the caller treats as an error. -/
def loadHTTPFile (f : HTTPFetch) : LoadHTTPOutcome :=
  match f with
  | HTTPFetch.requestBuildErr => LoadHTTPOutcome.err
  | HTTPFetch.doErr => LoadHTTPOutcome.err
  | HTTPFetch.response status body =>
      if status ≠ 200 then LoadHTTPOutcome.err
      else
        match body with
        | ReadAllResult.ok _ => LoadHTTPOutcome.panicNilError
        | ReadAllResult.failed _ => LoadHTTPOutcome.err

/-- The handler's observable response (main.go lines 79-109): 404 via
http.NotFound on a lookup miss; on a hit, the rendered page carrying
Import = host + path, Repo and Display; 500 via http.Error when template
execution fails. -/
inductive HandleResult where
  | notFound
  | page (importPath Repo Display : String)
  | renderFail
deriving DecidableEq

/-- handle (main.go lines 79-109).  `renderOk` is the outcome of
vanityTmpl.Execute, passed in as part of the environment. -/
def handle (host : String) (m : ConfigMap) (reqPath : String)
    (renderOk : Bool) : HandleResult :=
  match mapLookup m reqPath with
  | none => HandleResult.notFound
  | some p =>
      if renderOk then HandleResult.page (host ++ reqPath) p.Repo p.Display
      else HandleResult.renderFail

/-- HTTP status code of a HandleResult. -/
def statusOf : HandleResult → Nat
  | HandleResult.notFound => 404
  | HandleResult.page _ _ _ => 200
  | HandleResult.renderFail => 500

/-- Startup state of the process (main.go lines 41-54): which background
tasks main has spawned, whether ListenAndServe has been reached, whether
the spawned refresh goroutine has performed the first loadYaml, and the
shared map.  The map starts as the nil map. -/
structure BootState where
  sigSpawned : Bool
  refreshSpawned : Bool
  serving : Bool
  loadDone : Bool
  store : ConfigMap
deriving DecidableEq

/-- Process state at entry to main: nothing spawned, not serving, shared
map nil. -/
def bootInit : BootState :=
  { sigSpawned := false, refreshSpawned := false, serving := false,
    loadDone := false, store := [] }

/-- Interleaving of the main goroutine with the refresh goroutine during
startup.  Program order in main: refreshWhenSig() spawns the signal
loop, then refreshYaml() spawns the refresh loop with `go func()` and
RETURNS IMMEDIATELY (main.go lines 152-159), then main proceeds to
ListenAndServe.  The spawned refresh goroutine's first action,
loadYaml, can run at any point after its spawn, concurrently with the
rest of main. -/
inductive BootStep : BootState → BootState → Prop
  | spawnSig (s : BootState) :
      s.sigSpawned = false →
      BootStep s { s with sigSpawned := true }
  | spawnRefresh (s : BootState) :
      s.sigSpawned = true → s.refreshSpawned = false →
      BootStep s { s with refreshSpawned := true }
  | firstLoad (s : BootState) (newM : ConfigMap) :
      s.refreshSpawned = true → s.loadDone = false →
      BootStep s { s with loadDone := true, store := newM }
  | beginServe (s : BootState) :
      s.refreshSpawned = true → s.serving = false →
      BootStep s { s with serving := true }

/-- Reachability from the startup state. -/
def BootReach (s : BootState) : Prop :=
  Relation.ReflTransGen BootStep bootInit s

/-- A reachable startup state in which the server is accepting
connections while the first configuration load has not yet run. -/
def bootBad : BootState :=
  { sigSpawned := true, refreshSpawned := true, serving := true,
    loadDone := false, store := [] }

/-- State of the RWMutex-guarded shared map (main.go lines 28-34, 63-75,
83-85).  `readers` counts handlers inside RLock/RUnlock; `writerHeld`
is true while loadYaml holds the write lock; `pending` is, while the
writer is mid-critical-section, the list of decoded bindings it has not
yet stored (yaml.v2 stores them one SetMapIndex at a time); `committed`
is a ghost variable recording the map as of the last release of the
write lock (the last complete reload generation). -/
structure StoreState where
  m : ConfigMap
  readers : Nat
  writerHeld : Bool
  pending : Option (List (String × Entry))
  committed : ConfigMap

/-- Initial store state: nil map, no lock holders. -/
def storeInit : StoreState :=
  { m := [], readers := 0, writerHeld := false, pending := none, committed := [] }

/-- Transitions of the guarded store.  RLock admits a reader whenever no
writer holds the lock, regardless of how many readers are already
inside; Lock requires no readers and no writer; the writer mutates the
map one binding at a time while holding the lock; Unlock commits the
fully-updated map as the new generation. -/
inductive StoreStep : StoreState → StoreState → Prop
  | rAcq (s : StoreState) :
      s.writerHeld = false →
      StoreStep s { s with readers := s.readers + 1 }
  | rRel (s : StoreState) :
      0 < s.readers →
      StoreStep s { s with readers := s.readers - 1 }
  | wAcq (s : StoreState) (pairs : List (String × Entry)) :
      s.writerHeld = false → s.readers = 0 →
      StoreStep s { s with writerHeld := true, pending := some pairs }
  | wStep (s : StoreState) (kv : String × Entry) (rest : List (String × Entry)) :
      s.writerHeld = true → s.pending = some (kv :: rest) →
      StoreStep s { s with m := mapSet s.m kv.1 kv.2, pending := some rest }
  | wRel (s : StoreState) :
      s.writerHeld = true → s.pending = some [] →
      StoreStep s { s with writerHeld := false, pending := none, committed := s.m }

/-- Reachability of store states from storeInit. -/
def StoreReach (s : StoreState) : Prop :=
  Relation.ReflTransGen StoreStep storeInit s

/-- Invariant of the guarded store: readers are only inside when no
writer is, and when no writer holds the lock the map equals the last
committed generation and no write is pending. -/
def StoreInv (s : StoreState) : Prop :=
  (0 < s.readers → s.writerHeld = false) ∧
  (s.writerHeld = false → s.pending = none ∧ s.m = s.committed)

/-- A store state with one reader inside, reached by a single RLock. -/
def storeDemo : StoreState :=
  { m := [], readers := 1, writerHeld := false, pending := none, committed := [] }

/-- Concrete entries and parse outcomes used as inputs below. -/
def entOld : Entry := { Repo := "https://example.org/old", Display := "dOld" }

/-- Entry appearing only in the new document of the reload examples. -/
def entNew : Entry := { Repo := "https://example.org/new", Display := "" }

/-- Parse outcome of a document holding only the key "/new". -/
def parseNewOnly : Bytes → YamlDoc :=
  fun _ => YamlDoc.parsed false [("/new", entNew)]

/-- Parse outcome of a document with one decodable binding and a type
mismatch elsewhere (yaml.v2: decoding continues, TypeError returned). -/
def parseTypeErr : Bytes → YamlDoc :=
  fun _ => YamlDoc.parsed true [("/good", entOld)]

/-- Parse outcome of the spec's end-to-end scenario 1 document:
one entry "/foo" with a GitHub repo and no display. -/
def parseGithubFoo : Bytes → YamlDoc :=
  fun _ => YamlDoc.parsed false [("/foo", { Repo := "https://github.com/org/foo", Display := "" })]

/-- Parse outcome of bytes that are not well-formed YAML. -/
def parseSyn : Bytes → YamlDoc :=
  fun _ => YamlDoc.syntaxErr

/-- Folding a function that ignores the list elements returns its initial
value: the enrichment loop's shape. -/
theorem foldl_discard (l : List (String × Entry)) (i : ConfigMap) :
    List.foldl (fun acc kv => let _e : Entry := enrichEntry kv.2; acc) i l = i := by
  induction l generalizing i with
  | nil => rfl
  | cons hd tl ih => simp only [List.foldl]; exact ih i

/-- The enrichment loop never changes the map: every write in it targets
the range-copy local. -/
theorem enrichLoop_id (m : ConfigMap) : enrichLoop m = m :=
  foldl_discard m m

/-- Storing under one key leaves lookups of a different key unchanged. -/
theorem mapLookup_set_ne (m : ConfigMap) (k : String) (v : Entry)
    (k2 : String) (h : k ≠ k2) : mapLookup (mapSet m k v) k2 = mapLookup m k2 := by
  induction m with
  | nil => simp [mapSet, mapLookup, h]
  | cons hd tl ih =>
      obtain ⟨k0, v0⟩ := hd
      by_cases h0 : k0 = k
      · subst h0
        simp [mapSet, mapLookup, h]
      · simp [mapSet, mapLookup, h0, ih]

/-- Merging a list of bindings none of whose keys is k2 leaves lookups of
k2 unchanged. -/
theorem mapLookup_foldl_not_mem (pairs : List (String × Entry))
    (m : ConfigMap) (k2 : String)
    (h : ∀ kv, kv ∈ pairs → kv.1 ≠ k2) :
    mapLookup (List.foldl (fun acc kv => mapSet acc kv.1 kv.2) m pairs) k2
      = mapLookup m k2 := by
  induction pairs generalizing m with
  | nil => rfl
  | cons hd tl ih =>
      have hhd : hd.1 ≠ k2 := h hd (List.mem_cons_self hd tl)
      have htl : ∀ kv, kv ∈ tl → kv.1 ≠ k2 := fun kv hm => h kv (List.mem_cons_of_mem hd hm)
      calc mapLookup (List.foldl (fun acc kv => mapSet acc kv.1 kv.2) (mapSet m hd.1 hd.2) tl) k2
          = mapLookup (mapSet m hd.1 hd.2) k2 := ih (mapSet m hd.1 hd.2) htl
        _ = mapLookup m k2 := mapLookup_set_ne m hd.1 hd.2 k2 hhd

/-- List.isPrefixOf is transitive (over Char). -/
theorem isPrefixOfTrans (a : List Char) :
    ∀ b c : List Char, a.isPrefixOf b = true → b.isPrefixOf c = true →
      a.isPrefixOf c = true := by
  induction a with
  | nil => intro b c _ _; cases c <;> simp [List.isPrefixOf]
  | cons x xs ih =>
      intro b c h1 h2
      cases b with
      | nil => simp [List.isPrefixOf] at h1
      | cons y ys =>
          cases c with
          | nil => simp [List.isPrefixOf] at h2
          | cons z zs =>
              simp only [List.isPrefixOf, Bool.and_eq_true, beq_iff_eq] at h1 h2 ⊢
              exact ⟨h1.1.trans h2.1, ih ys zs h1.2 h2.2⟩

/-- A string with prefix "https" also has prefix "http". -/
theorem hasHttpsImpHttp (s : String) (h : goHasPrefix s "https" = true) :
    goHasPrefix s "http" = true :=
  isPrefixOfTrans _ _ _ (by decide) h

/-- One step of the guarded store preserves the invariant. -/
theorem storeInv_step (s t : StoreState) (hI : StoreInv s)
    (hstep : StoreStep s t) : StoreInv t := by
  cases hstep with
  | rAcq hw =>
      exact ⟨fun _ => hw, fun _ => hI.2 hw⟩
  | rRel hr =>
      exact ⟨fun _ => hI.1 hr, fun hw => hI.2 hw⟩
  | wAcq pairs hw hr =>
      refine ⟨fun hpos => ?_, fun hfalse => ?_⟩
      · exact absurd hpos (by simp [hr])
      · exact absurd hfalse (by simp)
  | wStep kv rest hw hp =>
      refine ⟨fun hpos => ?_, fun hfalse => ?_⟩
      · exact absurd (hI.1 hpos) (by simp [hw])
      · exact absurd (show s.writerHeld = false from hfalse) (by simp [hw])
  | wRel hw hp =>
      exact ⟨fun _ => rfl, fun _ => ⟨rfl, rfl⟩⟩

/-- Every reachable store state satisfies the invariant. -/
theorem storeReach_inv (s : StoreState) (h : StoreReach s) : StoreInv s := by
  induction h with
  | refl =>
      exact ⟨fun hpos => absurd hpos (by simp [storeInit]), fun _ => ⟨rfl, rfl⟩⟩
  | tail hsteps hstep ih =>
      exact storeInv_step _ _ ih hstep

/-- Any reachable startup state that is serving has already spawned the
refresh goroutine. -/
theorem bootReach_spawned (s : BootState) (h : BootReach s) :
    s.serving = true → s.refreshSpawned = true := by
  induction h with
  | refl => intro hs; simp [bootInit] at hs
  | tail hsteps hstep ih =>
      intro hs
      cases hstep with
      | spawnSig hu => exact ih hs
      | spawnRefresh hu1 hu2 => rfl
      | firstLoad newM hu1 hu2 => exact hu1
      | beginServe hu1 hu2 => exact hu1

/-- The bad startup interleaving is reachable: spawn the signal loop,
spawn the refresh loop, and reach ListenAndServe before the refresh
goroutine has run loadYaml once. -/
theorem bootBad_reach : BootReach bootBad :=
  Relation.ReflTransGen.tail
    (Relation.ReflTransGen.tail
      (Relation.ReflTransGen.single (BootStep.spawnSig bootInit rfl))
      (BootStep.spawnRefresh _ rfl rfl))
    (BootStep.beginServe _ rfl rfl)

/-- C1: the claim says every stored entry whose repo contains
"github.com" and whose display is empty has, after enrichment, the
three-part template as its display.  Evaluating loadYaml on the spec's
own scenario-1 document shows the STORED display is still empty — the
range loop writes to a copied struct value and the write is discarded —
although the loop body's computation (enrichEntry) produces exactly the
claimed template.  The code contradicts its own evident intent (the
Display assignment on line 73 is otherwise dead code), so this is a
code bug, not a spec error. -/
theorem c1_enrichment_lost :
    mapLookup (loadYaml parseGithubFoo (Except.ok []) []).1 "/foo"
      = some { Repo := "https://github.com/org/foo", Display := "" } ∧
    enrichEntry { Repo := "https://github.com/org/foo", Display := "" }
      = { Repo := "https://github.com/org/foo",
          Display := "https://github.com/org/foo https://github.com/org/foo/tree/master{/dir} https://github.com/org/foo/blob/master{/dir}/{file}#L{line}" } :=
  ⟨rfl, rfl⟩

/-- C2 counterexample: a reload that succeeds (error flag false) with a
document holding only the key "/new" leaves the previously present key
"/old" in the map — the previous mapping is NOT discarded and fully
replaced, refuting the claim. -/
theorem c2_replacement_counterexample :
    (loadYaml parseNewOnly (Except.ok []) [("/old", entOld)]).2 = false ∧
    mapLookup (loadYaml parseNewOnly (Except.ok []) [("/old", entOld)]).1 "/old"
      = some entOld :=
  ⟨rfl, rfl⟩

/-- C2 amended: a successful reload MERGES the decoded document into the
previous mapping (yaml.v2 decodes into the retained package-level map):
the resulting map is the previous one with each decoded binding stored
over it, and every key absent from the new document keeps its previous
binding. -/
theorem c2_merge_amended : ∀ (parse : Bytes → YamlDoc) (bs : Bytes)
    (m : ConfigMap) (pairs : List (String × Entry)),
    parse bs = YamlDoc.parsed false pairs →
    (loadYaml parse (Except.ok bs) m).1
      = List.foldl (fun acc kv => mapSet acc kv.1 kv.2) m pairs ∧
    ∀ k, (∀ kv, kv ∈ pairs → kv.1 ≠ k) →
      mapLookup (loadYaml parse (Except.ok bs) m).1 k = mapLookup m k := by
  intro parse bs m pairs h
  have h1 : (loadYaml parse (Except.ok bs) m).1
      = List.foldl (fun acc kv => mapSet acc kv.1 kv.2) m pairs := by
    simp [loadYaml, yamlUnmarshal, h, enrichLoop_id]
  refine ⟨h1, fun k hk => ?_⟩
  rw [h1]
  exact mapLookup_foldl_not_mem pairs m k hk

/-- C2 witness: the amended statement applied to the counterexample
reload, at the retained key "/old". -/
theorem c2_merge_amended_witness :
    mapLookup (loadYaml parseNewOnly (Except.ok []) [("/old", entOld)]).1 "/old"
      = mapLookup [("/old", entOld)] "/old" :=
  (c2_merge_amended parseNewOnly [] [("/old", entOld)] [("/new", entNew)] rfl).2
    "/old" (by decide)

/-- C3 counterexample: a reload that FAILS (loadYaml returns an error —
yaml.v2 type mismatch) nevertheless changes the shared mapping from []
to a map holding the decodable binding "/good": the store is not left
exactly as it was, refuting the atomicity claim. -/
theorem c3_atomicity_counterexample :
    loadYaml parseTypeErr (Except.ok []) [] = ([("/good", entOld)], true) :=
  rfl

/-- C3 amended: reloads that fail before decoding — fetch errors of any
kind (unreachable source, non-200 status, unreadable body, unreadable
file) and YAML syntax errors — leave the mapping exactly unchanged; but
a reload failing with a yaml.v2 type error first commits the decodable
bindings (merged over the previous map) and then returns the error. -/
theorem c3_failure_amended : ∀ (parse : Bytes → YamlDoc) (m : ConfigMap)
    (bs : Bytes) (pairs : List (String × Entry)),
    ((loadYaml parse (Except.error ()) m).1 = m ∧
      (loadYaml parse (Except.error ()) m).2 = true) ∧
    (parse bs = YamlDoc.syntaxErr →
      (loadYaml parse (Except.ok bs) m).1 = m ∧
      (loadYaml parse (Except.ok bs) m).2 = true) ∧
    (parse bs = YamlDoc.parsed true pairs →
      (loadYaml parse (Except.ok bs) m).1
        = List.foldl (fun acc kv => mapSet acc kv.1 kv.2) m pairs ∧
      (loadYaml parse (Except.ok bs) m).2 = true) := by
  intro parse m bs pairs
  refine ⟨⟨rfl, rfl⟩, fun h => ?_, fun h => ?_⟩
  · constructor <;> simp [loadYaml, yamlUnmarshal, h]
  · constructor <;> simp [loadYaml, yamlUnmarshal, h]

/-- C3 witness: the amended statement applied to a syntax-error reload
over a non-empty prior map, which is indeed left unchanged. -/
theorem c3_failure_amended_witness :
    (loadYaml parseSyn (Except.ok []) [("/old", entOld)]).1 = [("/old", entOld)] ∧
    (loadYaml parseSyn (Except.ok []) [("/old", entOld)]).2 = true :=
  (c3_failure_amended parseSyn [("/old", entOld)] [] []).2.1 rfl

/-- C4: the claim says a 200 response whose body is read to completion
without error yields the body bytes with no error and without crashing.
The code evaluated at such a response shows it PANICS instead:
loadHTTPFile logs with err.Error() unconditionally after ReadAll, and on
a successful read err is nil, a nil-pointer dereference that crashes the
process.  (Second conjunct: a failed body read is, as claimed, returned
as an error.)  The guard `if err != nil` around the log line was clearly
intended, so this is a code bug. -/
theorem c4_success_panics :
    loadHTTPFile (HTTPFetch.response 200 (ReadAllResult.ok [104, 105]))
      = LoadHTTPOutcome.panicNilError ∧
    loadHTTPFile (HTTPFetch.response 200 (ReadAllResult.failed []))
      = LoadHTTPOutcome.err :=
  ⟨rfl, rfl⟩

/-- C5 counterexample: two invocations of the parse/enrich step on
IDENTICAL input bytes (here []) but different prior shared mappings
produce different resulting mappings — the step is not a pure function
of the input bytes, because yaml.Unmarshal merges into the retained
package-level map. -/
theorem c5_purity_counterexample :
    (loadYaml parseNewOnly (Except.ok []) []).1 = [("/new", entNew)] ∧
    (loadYaml parseNewOnly (Except.ok []) [("/old", entOld)]).1
      = [("/old", entOld), ("/new", entNew)] :=
  ⟨rfl, rfl⟩

/-- C5 amended: the step is deterministic in the parsed document AND the
prior mapping together: any two invocations whose bytes parse to the
same document, run against the same prior mapping, produce identical
results (in particular, reloading twice in a row with identical bytes is
idempotent); but the result does depend on the prior mapping. -/
theorem c5_determinism_amended : ∀ (parse parse2 : Bytes → YamlDoc)
    (bs bs2 : Bytes) (m : ConfigMap),
    parse bs = parse2 bs2 →
    loadYaml parse (Except.ok bs) m = loadYaml parse2 (Except.ok bs2) m := by
  intro parse parse2 bs bs2 m h
  simp [loadYaml, h]

/-- C5 witness: the amended determinism applied to two different byte
inputs that parse to the same document. -/
theorem c5_determinism_amended_witness :
    loadYaml parseNewOnly (Except.ok []) [("/old", entOld)]
      = loadYaml parseNewOnly (Except.ok [0]) [("/old", entOld)] :=
  c5_determinism_amended parseNewOnly parseNewOnly [] [0] [("/old", entOld)] rfl

/-- C6 counterexample: the locator "httpfile.yaml" is a filesystem path —
its scheme does not indicate HTTP or HTTPS — yet readFile dispatches it
to the remote reader, because the code tests strings.HasPrefix(path,
"http"), not the URL scheme; this refutes the claimed "if and only if". -/
theorem c6_dispatch_counterexample :
    readFileDispatch "httpfile.yaml" = true ∧
    schemeIsHTTP "httpfile.yaml" = false :=
  ⟨rfl, rfl⟩

/-- C6 amended: a remote GET is issued iff the locator begins with the
four characters "http" (the second disjunct HasPrefix(path, "https") is
redundant); every locator whose scheme is http:// or https:// is indeed
dispatched remotely, but so is any filesystem path beginning with
"http"; all other locators are read from disk. -/
theorem c6_dispatch_amended : ∀ p : String,
    readFileDispatch p = goHasPrefix p "http" ∧
    (schemeIsHTTP p = true → readFileDispatch p = true) := by
  intro p
  constructor
  · cases hb : goHasPrefix p "http" with
    | true => simp [readFileDispatch, hb]
    | false =>
        cases hc : goHasPrefix p "https" with
        | true => exact absurd (hasHttpsImpHttp p hc) (by simp [hb])
        | false => simp [readFileDispatch, hb, hc]
  · intro h
    simp only [schemeIsHTTP, goHasPrefix, Bool.or_eq_true] at h
    rcases h with h | h
    · have hyes := isPrefixOfTrans ("http".data) ("http://".data) p.data (by decide) h
      simp [readFileDispatch, goHasPrefix, hyes]
    · have hyes := isPrefixOfTrans ("http".data) ("https://".data) p.data (by decide) h
      simp [readFileDispatch, goHasPrefix, hyes]

/-- C6 witness: the amended statement applied to an https URL, which is
dispatched to the remote reader. -/
theorem c6_dispatch_amended_witness :
    readFileDispatch "https://example.com/vanity.yaml" = true :=
  (c6_dispatch_amended "https://example.com/vanity.yaml").2 rfl

/-- C7 counterexample: a reachable startup interleaving in which the
server is accepting connections while the first configuration load has
not yet run (and the shared map is still nil/empty) — the initial load
is started asynchronously by refreshYaml's `go func` and does NOT
complete synchronously before ListenAndServe, refuting the claim. -/
theorem c7_sync_load_counterexample :
    BootReach bootBad ∧ bootBad.serving = true ∧ bootBad.loadDone = false ∧
    bootBad.store = [] :=
  ⟨bootBad_reach, rfl, rfl, rfl⟩

/-- C7 amended: the Shared Config Store does begin empty/nil, and the
refresh task (whose loop performs the initial load) is spawned before
the server begins accepting connections; but the initial load itself
runs asynchronously on that task, so serving can begin before the first
load completes and early lookups may see the empty mapping. -/
theorem c7_boot_amended :
    bootInit.store = [] ∧
    ∀ s : BootState, BootReach s → s.serving = true → s.refreshSpawned = true :=
  ⟨rfl, fun s h hs => bootReach_spawned s h hs⟩

/-- C7 witness: the amended statement applied to the reachable serving
state, whose refresh task is indeed spawned. -/
theorem c7_boot_amended_witness : bootBad.refreshSpawned = true :=
  c7_boot_amended.2 bootBad bootBad_reach rfl

/-- C8: for every inbound request, the handler responds 404 when the
request path is not a key of the current mapping, 200 when it is a key
and the template renders, and 500 when rendering fails; no other status
is ever produced.  Confirmed as claimed. -/
theorem c8_handler_status : ∀ (host : String) (m : ConfigMap) (p : String)
    (renderOk : Bool),
    (mapLookup m p = none → statusOf (handle host m p renderOk) = 404) ∧
    (∀ e, mapLookup m p = some e → renderOk = true →
      statusOf (handle host m p renderOk) = 200) ∧
    (∀ e, mapLookup m p = some e → renderOk = false →
      statusOf (handle host m p renderOk) = 500) ∧
    (statusOf (handle host m p renderOk) = 404 ∨
      statusOf (handle host m p renderOk) = 200 ∨
      statusOf (handle host m p renderOk) = 500) := by
  intro host m p renderOk
  refine ⟨fun h => ?_, fun e h hr => ?_, fun e h hr => ?_, ?_⟩
  · simp [handle, h, statusOf]
  · simp [handle, h, hr, statusOf]
  · simp [handle, h, hr, statusOf]
  · cases hl : mapLookup m p with
    | none => simp [handle, hl, statusOf]
    | some e => cases renderOk <;> simp [handle, hl, statusOf]

/-- C8 witness: the spec's end-to-end scenario — a mapped path with a
successful render — answers 200. -/
theorem c8_handler_status_witness :
    statusOf (handle "example.com" [("/foo", entNew)] "/foo" true) = 200 :=
  (c8_handler_status "example.com" [("/foo", entNew)] "/foo" true).2.1
    entNew rfl rfl

/-- C9: in every reachable state of the RWMutex-guarded store in which at
least one lookup holds the read lock, the map the lookup observes equals
the generation committed at the last release of the write lock — never a
map with a writer's merge partially applied, i.e. never a mixture of two
reload generations — and a further concurrent lookup can still acquire
the read lock (readers never block one another).  Confirmed as claimed. -/
theorem c9_store_consistency : ∀ s : StoreState, StoreReach s →
    0 < s.readers →
    s.m = s.committed ∧ StoreStep s { s with readers := s.readers + 1 } := by
  intro s hr hpos
  have hI := storeReach_inv s hr
  have hw : s.writerHeld = false := hI.1 hpos
  exact ⟨(hI.2 hw).2, StoreStep.rAcq s hw⟩

/-- C9 witness: the statement applied to the state reached by a single
read-lock acquisition from the initial store. -/
theorem c9_store_consistency_witness :
    storeDemo.m = storeDemo.committed ∧
    StoreStep storeDemo { storeDemo with readers := storeDemo.readers + 1 } :=
  c9_store_consistency storeDemo
    (Relation.ReflTransGen.single (StoreStep.rAcq storeInit rfl)) (by decide)

/-- C10: the handler looks up the raw request path, which always begins
with a slash, so a configuration key that does not begin with a slash is
unreachable: adding such a key changes no lookup at any slash-prefixed
request path, and every request against a mapping holding only such a
key answers 404.  Confirmed as claimed. -/
theorem c10_slashless_unreachable : ∀ (m : ConfigMap) (k : String)
    (e : Entry) (p host : String) (renderOk : Bool),
    goHasPrefix p "/" = true → goHasPrefix k "/" = false →
    mapLookup (mapSet m k e) p = mapLookup m p ∧
    statusOf (handle host [(k, e)] p renderOk) = 404 := by
  intro m k e p host renderOk hp hk
  have hne : k ≠ p := by
    intro h
    rw [h, hp] at hk
    exact Bool.noConfusion hk
  constructor
  · exact mapLookup_set_ne m k e p hne
  · simp [handle, mapLookup, hne, statusOf]

/-- C10 witness: the key "foo" (no leading slash) is invisible to the
request path "/foo". -/
theorem c10_slashless_unreachable_witness :
    mapLookup (mapSet [] "foo" entNew) "/foo" = mapLookup [] "/foo" ∧
    statusOf (handle "example.com" [("foo", entNew)] "/foo" true) = 404 :=
  c10_slashless_unreachable [] "foo" entNew "/foo" "example.com" true rfl rfl
